import Mathlib

/-
  Verification of w32_mutex (src/mutex.hpp): a shim exposing std::mutex-like
  primitives over the Win32 API for old C++ compilers.

  Shallow embedding notes.
  * A Win32 kernel mutex is modelled by `MutexState` (owning thread and
    recursion count; Win32 kernel mutexes are reentrant for their owner).
  * A Win32 critical section is modelled by `CriticalSection` in the same way.
  * Threads are natural numbers (`Tid`).
  * `khmz_throw` depends on the build configuration `KHMZ_DISABLE_THROW`;
    each operation takes a flag `dis : Bool` that is true exactly when
    `KHMZ_DISABLE_THROW` is defined.  When `dis` is true, `khmz_throw(e)`
    expands to `do { } while (0)` and control FALLS THROUGH to the next
    statement of the function; this is modelled faithfully.
  * A C++ function that may throw returns an `Outcome`: `ok` with the normal
    result, or `thrown` with the exception message and the state after stack
    unwinding.  An operation whose execution has no defined outcome in the
    model (a null-pointer dereference, a blocking wait on a lock held by
    another thread, or undefined behaviour of the OS primitive) returns
    `none` in an `Option`.
  * `unique_lock<T_MUTEX>` / `lock_guard<T_MUTEX>` are verified at the
    instantiation `T_MUTEX = khmz::mutex`; the pointer `T_MUTEX* m_mutex` is
    an optional address into a `World` mapping addresses to mutex states.
-/

namespace khmz

/-- Thread identifier. -/
abbrev Tid := Nat

/-- State of one Win32 kernel mutex object: the owning thread, if any, and
the OS-managed recursion count (0 when unowned). -/
structure MutexState where
  owner : Option Tid
  count : Nat
deriving DecidableEq, Repr

/-- Wait statuses returned by WaitForSingleObject that the source inspects. -/
inductive WaitStatus where
  | WAIT_OBJECT_0
  | WAIT_TIMEOUT
  | WAIT_ABANDONED
  | WAIT_FAILED
deriving DecidableEq, Repr, BEq

/-- WaitForSingleObject(hMutex, 0) by thread `t`: grants the mutex when it is
free or already owned by `t` (Win32 kernel mutexes are reentrant), otherwise
returns WAIT_TIMEOUT at once without changing the state. -/
def waitZero (t : Tid) (s : MutexState) : WaitStatus × MutexState :=
  match s.owner with
  | none => (WaitStatus.WAIT_OBJECT_0, ⟨some t, 1⟩)
  | some u =>
    if u = t then (WaitStatus.WAIT_OBJECT_0, ⟨some t, s.count + 1⟩)
    else (WaitStatus.WAIT_TIMEOUT, s)

/-- State change performed by the OS when a wait by thread `t` is granted. -/
def acquireMutex (t : Tid) (s : MutexState) : MutexState :=
  match s.owner with
  | none => ⟨some t, 1⟩
  | some u => if u = t then ⟨some u, s.count + 1⟩ else s

/-- ReleaseMutex by thread `t`: succeeds exactly when `t` owns the mutex,
decrementing the recursion count (freeing the mutex at zero); on failure it
returns FALSE and leaves the state unchanged. -/
def releaseMutex (t : Tid) (s : MutexState) : Bool × MutexState :=
  match s.owner with
  | none => (false, s)
  | some u =>
    if u = t then
      if s.count ≤ 1 then (true, ⟨none, 0⟩) else (true, ⟨some u, s.count - 1⟩)
    else (false, s)

/-- Outcome of a C++ call: a normal return carrying `α`, or a propagating
exception carrying its message and the state `β` after unwinding. -/
inductive Outcome (α β : Type) where
  | ok : α → Outcome α β
  | thrown : String → β → Outcome α β
deriving Repr

/-- Message thrown by khmz::mutex::lock. -/
def msgLockFail : String := "Failed to lock mutex at khmz::mutex::lock"

/-- Message thrown by khmz::mutex::unlock. -/
def msgUnlockFail : String := "Failed to release mutex at khmz::mutex::unlock"

/-- Message thrown by khmz::unique_lock::lock. -/
def msgLockOwned : String := "Lock already owned at khmz::unique_lock::lock"

/-- Message thrown by khmz::unique_lock::try_lock. -/
def msgTryLockOwned : String := "Lock already owned at khmz::unique_lock::try_lock"

/-- Message thrown by khmz::unique_lock::unlock. -/
def msgNoLockToRelease : String := "No lock to release at khmz::unique_lock::unlock"

/-- khmz::mutex::lock — WaitForSingleObject(m_hMutex, INFINITE) followed by a
throw unless the status is WAIT_OBJECT_0.  `sig` is the status the OS
completes the wait with (an oracle covering abandonment and wait failure);
on WAIT_OBJECT_0 the OS has granted the mutex to `t`.  Under
KHMZ_DISABLE_THROW (`dis = true`) the failure branch is a no-op and the call
returns normally with the state unchanged. -/
def mutex.lock (dis : Bool) (t : Tid) (sig : WaitStatus) (s : MutexState) :
    Outcome MutexState MutexState :=
  if sig = WaitStatus.WAIT_OBJECT_0 then Outcome.ok (acquireMutex t s)
  else if dis then Outcome.ok s
  else Outcome.thrown msgLockFail s

/-- khmz::mutex::unlock — ReleaseMutex followed by a throw on failure; under
KHMZ_DISABLE_THROW the failure is silently swallowed. -/
def mutex.unlock (dis : Bool) (t : Tid) (s : MutexState) :
    Outcome MutexState MutexState :=
  let r := releaseMutex t s
  if r.1 then Outcome.ok r.2
  else if dis then Outcome.ok r.2
  else Outcome.thrown msgUnlockFail r.2

/-- khmz::mutex::try_lock — WaitForSingleObject(m_hMutex, 0), returning
whether the status equals WAIT_OBJECT_0.  The function is declared
khmz_noexcept and contains no throw: its embedding is a plain pair. -/
def mutex.try_lock (t : Tid) (s : MutexState) : Bool × MutexState :=
  let r := waitZero t s
  (r.1 == WaitStatus.WAIT_OBJECT_0, r.2)

/-- State of one Win32 CRITICAL_SECTION: owning thread and recursion count. -/
structure CriticalSection where
  owner : Option Tid
  count : Nat
deriving DecidableEq, Repr

/-- The freed critical section, as set up by InitializeCriticalSection. -/
def csFree : CriticalSection := ⟨none, 0⟩

/-- EnterCriticalSection by thread `t`: enters at once when the section is
free or already owned by `t` (reentrant); `none` models blocking on a section
owned by a different thread. -/
def enterCriticalSection (t : Tid) (s : CriticalSection) :
    Option CriticalSection :=
  match s.owner with
  | none => some ⟨some t, 1⟩
  | some u => if u = t then some ⟨some u, s.count + 1⟩ else none

/-- TryEnterCriticalSection by thread `t`: nonzero exactly when the section is
free or already owned by `t`; never blocks. -/
def tryEnterCriticalSection (t : Tid) (s : CriticalSection) :
    Bool × CriticalSection :=
  match s.owner with
  | none => (true, ⟨some t, 1⟩)
  | some u =>
    if u = t then (true, ⟨some u, s.count + 1⟩) else (false, s)

/-- LeaveCriticalSection by thread `t`: decrements the recursion count of a
section owned by `t`, freeing it at zero; `none` models the undefined
behaviour of leaving a section the thread does not own. -/
def leaveCriticalSection (t : Tid) (s : CriticalSection) :
    Option CriticalSection :=
  match s.owner with
  | none => none
  | some u =>
    if u = t then
      if s.count ≤ 1 then some ⟨none, 0⟩ else some ⟨some u, s.count - 1⟩
    else none

/-- khmz::recursive_mutex::lock — EnterCriticalSection; khmz_noexcept. -/
def recursive_mutex.lock (t : Tid) (s : CriticalSection) :
    Option CriticalSection :=
  enterCriticalSection t s

/-- khmz::recursive_mutex::unlock — LeaveCriticalSection; khmz_noexcept. -/
def recursive_mutex.unlock (t : Tid) (s : CriticalSection) :
    Option CriticalSection :=
  leaveCriticalSection t s

/-- khmz::recursive_mutex::try_lock — TryEnterCriticalSection != 0. -/
def recursive_mutex.try_lock (t : Tid) (s : CriticalSection) :
    Bool × CriticalSection :=
  tryEnterCriticalSection t s

/-- `n` consecutive calls of khmz::recursive_mutex::lock by thread `t`. -/
def recursive_mutex.lockN (t : Tid) : Nat → CriticalSection → Option CriticalSection
  | 0, s => some s
  | Nat.succ n, s => (recursive_mutex.lock t s).bind (recursive_mutex.lockN t n)

/-- `n` consecutive calls of khmz::recursive_mutex::unlock by thread `t`. -/
def recursive_mutex.unlockN (t : Tid) : Nat → CriticalSection → Option CriticalSection
  | 0, s => some s
  | Nat.succ n, s => (recursive_mutex.unlock t s).bind (recursive_mutex.unlockN t n)

/-- The heap of khmz::mutex objects: each address holds one mutex state.
`T_MUTEX* m_mutex` in the guards is an optional address into this world. -/
structure World where
  locks : Tid → MutexState

/-- Read the mutex state at address `a`. -/
def World.get (w : World) (a : Nat) : MutexState := w.locks a

/-- Write the mutex state at address `a`. -/
def World.set (w : World) (a : Nat) (s : MutexState) : World :=
  ⟨fun b => if b = a then s else w.locks b⟩

/-- khmz::lock_guard<khmz::mutex> constructor: stores the reference and at
once performs `m_mutex.lock()` on the referenced mutex (at address `a`).
The constructor is khmz_noexcept; in the default configuration a failing wait
still raises (pre-C++11 khmz_noexcept is empty and the error propagates). -/
def lock_guard.ctor (dis : Bool) (t : Tid) (sig : WaitStatus) (a : Nat)
    (w : World) : Outcome World World :=
  match mutex.lock dis t sig (w.get a) with
  | Outcome.ok s => Outcome.ok (w.set a s)
  | Outcome.thrown m s => Outcome.thrown m (w.set a s)

/-- khmz::lock_guard<khmz::mutex> destructor: unconditionally performs
`m_mutex.unlock()`.  The destructor is khmz_noexcept, so a throw from
`unlock` has no defined continuation (`none`). -/
def lock_guard.dtor (dis : Bool) (t : Tid) (a : Nat) (w : World) :
    Option World :=
  match mutex.unlock dis t (w.get a) with
  | Outcome.ok s => some (w.set a s)
  | Outcome.thrown _ _ => none

/-- khmz::unique_lock<khmz::mutex>: `T_MUTEX* m_mutex` (an optional address)
and `bool m_owns_lock`. -/
structure UniqueLock where
  m_mutex : Option Nat
  m_owns_lock : Bool
deriving DecidableEq, Repr

/-- The default constructor: `m_mutex(nullptr), m_owns_lock(false)`. -/
def UniqueLock.defaultCtor : UniqueLock := ⟨none, false⟩

/-- khmz::unique_lock::lock.  In the default configuration: throw
"Lock already owned" when `m_owns_lock`; otherwise `m_mutex->lock()` inside a
try block whose catch sets `m_owns_lock = false` and rethrows, and on normal
return set `m_owns_lock = true`.  Under KHMZ_DISABLE_THROW the owned check
falls through and there is no try block.  `none` models the null-pointer
dereference of `m_mutex` when no mutex is associated. -/
def UniqueLock.lock (dis : Bool) (t : Tid) (sig : WaitStatus)
    (g : UniqueLock) (w : World) :
    Option (Outcome (UniqueLock × World) (UniqueLock × World)) :=
  if g.m_owns_lock && !dis then
    some (Outcome.thrown msgLockOwned (g, w))
  else
    match g.m_mutex with
    | none => none
    | some a =>
      match mutex.lock dis t sig (w.get a) with
      | Outcome.ok s =>
        some (Outcome.ok ({ g with m_owns_lock := true }, w.set a s))
      | Outcome.thrown m s =>
        some (Outcome.thrown m ({ g with m_owns_lock := false }, w.set a s))

/-- khmz::unique_lock::try_lock: throw "Lock already owned" when
`m_owns_lock` (fall through under KHMZ_DISABLE_THROW); otherwise
`m_owns_lock = m_mutex->try_lock()` and return `m_owns_lock`. -/
def UniqueLock.try_lock (dis : Bool) (t : Tid) (g : UniqueLock) (w : World) :
    Option (Outcome (Bool × UniqueLock × World) (UniqueLock × World)) :=
  if g.m_owns_lock && !dis then
    some (Outcome.thrown msgTryLockOwned (g, w))
  else
    match g.m_mutex with
    | none => none
    | some a =>
      let r := mutex.try_lock t (w.get a)
      some (Outcome.ok (r.1, { g with m_owns_lock := r.1 }, w.set a r.2))

/-- khmz::unique_lock::unlock: throw "No lock to release" when not
`m_owns_lock` (fall through under KHMZ_DISABLE_THROW); otherwise
`m_mutex->unlock()` then `m_owns_lock = false`.  When `m_mutex->unlock()`
throws, the assignment is not reached and the guard still claims ownership. -/
def UniqueLock.unlock (dis : Bool) (t : Tid) (g : UniqueLock) (w : World) :
    Option (Outcome (UniqueLock × World) (UniqueLock × World)) :=
  if !g.m_owns_lock && !dis then
    some (Outcome.thrown msgNoLockToRelease (g, w))
  else
    match g.m_mutex with
    | none => none
    | some a =>
      match mutex.unlock dis t (w.get a) with
      | Outcome.ok s =>
        some (Outcome.ok ({ g with m_owns_lock := false }, w.set a s))
      | Outcome.thrown m s =>
        some (Outcome.thrown m (g, w.set a s))

/-- khmz::unique_lock::release: `m_mutex = nullptr; m_owns_lock = false;`
with no call on the underlying mutex — the world is passed through
untouched. -/
def UniqueLock.release (_g : UniqueLock) (w : World) : UniqueLock × World :=
  (⟨none, false⟩, w)

/-- khmz::unique_lock::owns_lock: pure query of `m_owns_lock`. -/
def UniqueLock.owns_lock (g : UniqueLock) : Bool := g.m_owns_lock

/-- The move constructor (C++11 and later): the new guard copies
`other.m_mutex` and `other.m_owns_lock`, then `other` is cleared.  Returns
(constructed guard, state of `other` afterwards); no mutex is touched. -/
def UniqueLock.moveCtor (other : UniqueLock) : UniqueLock × UniqueLock :=
  (⟨other.m_mutex, other.m_owns_lock⟩, ⟨none, false⟩)

/-- The move assignment operator (C++11 and later), for distinct objects
(`this != &other` — self-assignment is the identity in the source): when
`m_owns_lock && m_mutex`, the destination first calls `m_mutex->unlock()`;
then it takes over `other`'s fields and `other` is cleared.  Returns
(destination, source afterwards, world); the operator is khmz_noexcept, so a
throw from `unlock` has no defined continuation (`none`). -/
def UniqueLock.moveAssign (dis : Bool) (t : Tid) (self other : UniqueLock)
    (w : World) : Option (UniqueLock × UniqueLock × World) :=
  let step : Option World :=
    match self.m_mutex with
    | none => some w
    | some a =>
      if self.m_owns_lock then
        match mutex.unlock dis t (w.get a) with
        | Outcome.ok s => some (w.set a s)
        | Outcome.thrown _ _ => none
      else some w
  step.map fun ww => (⟨other.m_mutex, other.m_owns_lock⟩, ⟨none, false⟩, ww)

/-- khmz::unique_lock destructor: `if (m_owns_lock) m_mutex->unlock();`.
`none` models the null dereference when owning with no association, and the
terminated process when the khmz_noexcept destructor sees a throw. -/
def UniqueLock.dtor (dis : Bool) (t : Tid) (g : UniqueLock) (w : World) :
    Option World :=
  if g.m_owns_lock then
    match g.m_mutex with
    | none => none
    | some a =>
      match mutex.unlock dis t (w.get a) with
      | Outcome.ok s => some (w.set a s)
      | Outcome.thrown _ _ => none
  else some w

/-- Holds when the call result is a propagating exception with message
`msg`. -/
def throwsMsg {α β : Type} (msg : String) :
    Option (Outcome α β) → Prop
  | some (Outcome.thrown m _) => m = msg
  | _ => False

/-- A world in which every mutex is free: used as a concrete test state. -/
def wAllFree : World := ⟨fun _ => ⟨none, 0⟩⟩

/-- A world in which every mutex is owned by thread 0 with count 1. -/
def wAllOwned0 : World := ⟨fun _ => ⟨some 0, 1⟩⟩

theorem World.get_set_self (w : World) (a : Nat) (s : MutexState) :
    (w.set a s).get a = s := by
  simp [World.get, World.set]

theorem World.get_set_ne (w : World) (a b : Nat) (s : MutexState)
    (h : b ≠ a) : (w.set a s).get b = w.get b := by
  simp [World.get, World.set, h]

theorem World.set_get_self (w : World) (a : Nat) :
    w.set a (w.get a) = w := by
  cases w with
  | mk f =>
    have hf : (fun b => if b = a then f a else f b) = f := by
      funext b
      by_cases h : b = a
      · subst h; simp
      · simp [h]
    show World.mk (fun b => if b = a then f a else f b) = World.mk f
    rw [hf]

theorem UniqueLock.eta_owns_false {g : UniqueLock}
    (h : g.m_owns_lock = false) : { g with m_owns_lock := false } = g := by
  cases g; simp_all

theorem UniqueLock.eta_owns_true {g : UniqueLock}
    (h : g.m_owns_lock = true) : { g with m_owns_lock := true } = g := by
  cases g; simp_all

/-- C8: khmz::mutex::try_lock never throws (its embedding is a plain pair):
on a mutex owned by another thread it returns false and leaves the mutex
state unchanged; on a free mutex it returns true and the caller becomes the
owner. -/
theorem mutex_try_lock_spec (t u : Tid) (s : MutexState) :
    (s.owner = some u → u ≠ t → mutex.try_lock t s = (false, s)) ∧
    (s.owner = none → mutex.try_lock t s = (true, ⟨some t, 1⟩)) := by
  constructor
  · intro hown hne
    cases s with
    | mk o c =>
      simp only at hown
      subst hown
      simp only [mutex.try_lock, waitZero]
      rw [if_neg hne]
      rfl
  · intro hown
    cases s with
    | mk o c =>
      simp only at hown
      subst hown
      rfl

theorem mutex_try_lock_spec_witness :
    ((⟨some 1, 1⟩ : MutexState).owner = some 1 ∧ (1 : Tid) ≠ 0 ∧
      mutex.try_lock 0 ⟨some 1, 1⟩ = (false, ⟨some 1, 1⟩)) ∧
    ((⟨none, 0⟩ : MutexState).owner = none ∧
      mutex.try_lock 0 ⟨none, 0⟩ = (true, ⟨some 0, 1⟩)) :=
  ⟨⟨rfl, by decide,
    (mutex_try_lock_spec 0 1 ⟨some 1, 1⟩).1 rfl (by decide)⟩,
   ⟨rfl, (mutex_try_lock_spec 0 1 ⟨none, 0⟩).2 rfl⟩⟩

/-- C9: khmz::unique_lock::release unconditionally clears the association
and the ownership flag and performs no operation on the underlying lock:
for every prior guard state the world is returned untouched. -/
theorem uniqueLock_release_disassociates (g : UniqueLock) (w : World) :
    (UniqueLock.release g w).1.m_mutex = none ∧
    (UniqueLock.release g w).1.m_owns_lock = false ∧
    (UniqueLock.release g w).2 = w :=
  ⟨rfl, rfl, rfl⟩

/-- Counterexample to C1 as stated: under KHMZ_DISABLE_THROW the no-op
`khmz_throw` in unlock() falls through, so a guard that holds no lock still
calls `m_mutex->unlock()`.  With the underlying mutex owned by the calling
thread (count 1), the call raises no error but the ReleaseMutex succeeds and
the underlying lock's state changes from owned to free. -/
theorem silent_unlock_modifies_lock_counterexample :
    UniqueLock.unlock true 0 ⟨some 0, false⟩ wAllOwned0
      = some (Outcome.ok (⟨some 0, false⟩, wAllOwned0.set 0 ⟨none, 0⟩)) ∧
    ¬ ((wAllOwned0.set 0 ⟨none, 0⟩).get 0 = wAllOwned0.get 0) :=
  ⟨rfl, by decide⟩

/-- C1 (amended): under KHMZ_DISABLE_THROW, unlock() on a unique_lock guard
that holds no lock raises no observable error and — provided the calling
thread does not own the underlying mutex, in particular when the lock was
never acquired — leaves both the guard's fields and the underlying lock's
state unchanged. -/
theorem silent_unlock_unowned_frame (t : Tid) (g : UniqueLock) (w : World)
    (a : Nat) (howns : g.m_owns_lock = false) (hassoc : g.m_mutex = some a)
    (hno : (w.get a).owner ≠ some t) :
    UniqueLock.unlock true t g w = some (Outcome.ok (g, w)) := by
  have hrel : releaseMutex t (w.get a) = (false, w.get a) := by
    cases hs : (w.get a).owner with
    | none => simp [releaseMutex, hs]
    | some u =>
      have hut : u ≠ t := by
        intro h
        exact hno (by rw [hs, h])
      simp [releaseMutex, hs, hut]
  obtain ⟨gm, go⟩ := g
  simp only at howns hassoc
  subst howns
  subst hassoc
  simp [UniqueLock.unlock, mutex.unlock, hrel, World.set_get_self]

theorem silent_unlock_unowned_frame_witness :
    ((⟨some 0, false⟩ : UniqueLock).m_owns_lock = false ∧
      (⟨some 0, false⟩ : UniqueLock).m_mutex = some 0 ∧
      (wAllFree.get 0).owner ≠ some 0) ∧
    UniqueLock.unlock true 0 ⟨some 0, false⟩ wAllFree
      = some (Outcome.ok (⟨some 0, false⟩, wAllFree)) :=
  ⟨⟨rfl, rfl, by decide⟩,
   silent_unlock_unowned_frame 0 ⟨some 0, false⟩ wAllFree 0 rfl rfl
     (by decide)⟩

/-- C2: in the default (throwing) configuration, khmz::unique_lock::lock
raises "Lock already owned" exactly when the guard currently owns its lock,
changing nothing in that case; and when the guard is unowned and the
underlying blocking acquire throws, the error propagates with the guard
still unowned and the world unchanged. -/
theorem uniqueLock_lock_already_owned_iff (t : Tid) (sig : WaitStatus)
    (g : UniqueLock) (w : World) (a : Nat) :
    (throwsMsg msgLockOwned (UniqueLock.lock false t sig g w) ↔
       g.m_owns_lock = true) ∧
    (g.m_owns_lock = true →
       UniqueLock.lock false t sig g w
         = some (Outcome.thrown msgLockOwned (g, w))) ∧
    (g.m_owns_lock = false → g.m_mutex = some a →
       sig ≠ WaitStatus.WAIT_OBJECT_0 →
       UniqueLock.lock false t sig g w
         = some (Outcome.thrown msgLockFail (g, w))) := by
  have hmsg : ¬ (msgLockFail = msgLockOwned) := by decide
  cases hg : g.m_owns_lock with
  | true =>
    refine ⟨?_, ?_, ?_⟩
    · simp [UniqueLock.lock, hg, throwsMsg]
    · intro _
      simp [UniqueLock.lock, hg]
    · intro h
      exact absurd h (by decide)
  | false =>
    refine ⟨?_, ?_, ?_⟩
    · simp only [hg, Bool.false_eq_true, iff_false]
      intro h
      cases hm : g.m_mutex with
      | none =>
        simp [UniqueLock.lock, hg, hm, throwsMsg] at h
      | some b =>
        by_cases hsig : sig = WaitStatus.WAIT_OBJECT_0
        · simp [UniqueLock.lock, hg, hm, hsig, mutex.lock, throwsMsg] at h
        · simp [UniqueLock.lock, hg, hm, hsig, mutex.lock, throwsMsg] at h
          exact hmsg h
    · intro h
      exact absurd h (by decide)
    · intro _ hm hsig
      obtain ⟨gm, go⟩ := g
      simp only at hg hm
      subst hg
      subst hm
      simp [UniqueLock.lock, mutex.lock, hsig, World.set_get_self]

theorem uniqueLock_lock_already_owned_iff_witness :
    ((⟨some 0, true⟩ : UniqueLock).m_owns_lock = true ∧
      UniqueLock.lock false 0 WaitStatus.WAIT_OBJECT_0 ⟨some 0, true⟩ wAllFree
        = some (Outcome.thrown msgLockOwned (⟨some 0, true⟩, wAllFree))) ∧
    ((⟨some 0, false⟩ : UniqueLock).m_owns_lock = false ∧
      WaitStatus.WAIT_FAILED ≠ WaitStatus.WAIT_OBJECT_0 ∧
      UniqueLock.lock false 0 WaitStatus.WAIT_FAILED ⟨some 0, false⟩ wAllFree
        = some (Outcome.thrown msgLockFail (⟨some 0, false⟩, wAllFree))) :=
  ⟨⟨rfl,
    (uniqueLock_lock_already_owned_iff 0 WaitStatus.WAIT_OBJECT_0
      ⟨some 0, true⟩ wAllFree 0).2.1 rfl⟩,
   ⟨rfl, by decide,
    (uniqueLock_lock_already_owned_iff 0 WaitStatus.WAIT_FAILED
      ⟨some 0, false⟩ wAllFree 0).2.2 rfl rfl (by decide)⟩⟩

/-- C3: in the default (throwing) configuration, khmz::unique_lock::unlock
raises "No lock to release" exactly when the guard does not own its lock,
changing neither the guard nor the world in that case; when the guard owns
its lock (held by the calling thread with count 1), it releases the
underlying mutex and the guard becomes unowned. -/
theorem uniqueLock_unlock_no_lock_iff (t : Tid) (g : UniqueLock) (w : World)
    (a : Nat) :
    (throwsMsg msgNoLockToRelease (UniqueLock.unlock false t g w) ↔
       g.m_owns_lock = false) ∧
    (g.m_owns_lock = false →
       UniqueLock.unlock false t g w
         = some (Outcome.thrown msgNoLockToRelease (g, w))) ∧
    (g.m_owns_lock = true → g.m_mutex = some a →
       w.get a = ⟨some t, 1⟩ →
       UniqueLock.unlock false t g w
         = some (Outcome.ok (⟨some a, false⟩, w.set a ⟨none, 0⟩))) := by
  have hmsg : ¬ (msgUnlockFail = msgNoLockToRelease) := by decide
  cases hg : g.m_owns_lock with
  | false =>
    refine ⟨?_, ?_, ?_⟩
    · simp [UniqueLock.unlock, hg, throwsMsg]
    · intro _
      simp [UniqueLock.unlock, hg]
    · intro h
      exact absurd h (by decide)
  | true =>
    refine ⟨?_, ?_, ?_⟩
    · simp only [hg, Bool.true_eq_false, iff_false]
      intro h
      cases hm : g.m_mutex with
      | none =>
        simp [UniqueLock.unlock, hg, hm, throwsMsg] at h
      | some b =>
        rcases hr : releaseMutex t (w.get b) with ⟨ok, s2⟩
        cases ok
        · simp [UniqueLock.unlock, hg, hm, mutex.unlock, hr, throwsMsg] at h
          exact hmsg h
        · simp [UniqueLock.unlock, hg, hm, mutex.unlock, hr, throwsMsg] at h
    · intro h
      exact absurd h (by decide)
    · intro _ hm hs
      obtain ⟨gm, go⟩ := g
      simp only at hg hm
      subst hg
      subst hm
      simp [UniqueLock.unlock, mutex.unlock, hs, releaseMutex]

theorem uniqueLock_unlock_no_lock_iff_witness :
    ((⟨some 0, false⟩ : UniqueLock).m_owns_lock = false ∧
      UniqueLock.unlock false 0 ⟨some 0, false⟩ wAllFree
        = some (Outcome.thrown msgNoLockToRelease
            (⟨some 0, false⟩, wAllFree))) ∧
    ((⟨some 0, true⟩ : UniqueLock).m_owns_lock = true ∧
      (⟨some 0, true⟩ : UniqueLock).m_mutex = some 0 ∧
      wAllOwned0.get 0 = ⟨some 0, 1⟩ ∧
      UniqueLock.unlock false 0 ⟨some 0, true⟩ wAllOwned0
        = some (Outcome.ok (⟨some 0, false⟩, wAllOwned0.set 0 ⟨none, 0⟩))) :=
  ⟨⟨rfl,
    (uniqueLock_unlock_no_lock_iff 0 ⟨some 0, false⟩ wAllFree 0).2.1 rfl⟩,
   ⟨rfl, rfl, rfl,
    (uniqueLock_unlock_no_lock_iff 0 ⟨some 0, true⟩ wAllOwned0 0).2.2
      rfl rfl rfl⟩⟩

/-- C4: in the default (throwing) configuration, khmz::unique_lock::try_lock
raises "Lock already owned" if the guard owns its lock (changing nothing);
otherwise it performs the non-blocking acquire on the associated mutex, the
ownership flag becomes exactly the acquire's success bit, and the returned
boolean equals that flag. -/
theorem uniqueLock_try_lock_spec (t : Tid) (g : UniqueLock) (w : World)
    (a : Nat) :
    (g.m_owns_lock = true →
       UniqueLock.try_lock false t g w
         = some (Outcome.thrown msgTryLockOwned (g, w))) ∧
    (g.m_owns_lock = false → g.m_mutex = some a →
       UniqueLock.try_lock false t g w
         = some (Outcome.ok ((mutex.try_lock t (w.get a)).1,
             ⟨some a, (mutex.try_lock t (w.get a)).1⟩,
             w.set a (mutex.try_lock t (w.get a)).2))) := by
  constructor
  · intro h
    simp [UniqueLock.try_lock, h]
  · intro hg hm
    obtain ⟨gm, go⟩ := g
    simp only at hg hm
    subst hg
    subst hm
    simp [UniqueLock.try_lock]

theorem uniqueLock_try_lock_spec_witness :
    ((⟨some 0, true⟩ : UniqueLock).m_owns_lock = true ∧
      UniqueLock.try_lock false 0 ⟨some 0, true⟩ wAllFree
        = some (Outcome.thrown msgTryLockOwned (⟨some 0, true⟩, wAllFree))) ∧
    ((⟨some 0, false⟩ : UniqueLock).m_owns_lock = false ∧
      UniqueLock.try_lock false 0 ⟨some 0, false⟩ wAllFree
        = some (Outcome.ok ((mutex.try_lock 0 (wAllFree.get 0)).1,
            ⟨some 0, (mutex.try_lock 0 (wAllFree.get 0)).1⟩,
            wAllFree.set 0 (mutex.try_lock 0 (wAllFree.get 0)).2))) :=
  ⟨⟨rfl,
    (uniqueLock_try_lock_spec 0 ⟨some 0, true⟩ wAllFree 0).1 rfl⟩,
   ⟨rfl,
    (uniqueLock_try_lock_spec 0 ⟨some 0, false⟩ wAllFree 0).2 rfl rfl⟩⟩

/-- C5: a move transfer between unique_lock guards clears the source and
endows the destination with exactly the source's prior association and
ownership flag; move assignment into a destination that owned a lock held
by the calling thread first releases that lock; after moving an owning
guard A (on lock `l`) into guard B by move construction, destroying B
releases `l` (bringing it from count 1 to free, i.e. exactly once) and
destroying the moved-from A changes nothing. -/
theorem uniqueLock_move_transfer (t l : Tid) (w : World)
    (g other : UniqueLock) :
    (UniqueLock.moveCtor g = (⟨g.m_mutex, g.m_owns_lock⟩, ⟨none, false⟩)) ∧
    (g.m_mutex = some l → g.m_owns_lock = true → w.get l = ⟨some t, 1⟩ →
       UniqueLock.moveAssign false t g other w
         = some (⟨other.m_mutex, other.m_owns_lock⟩, ⟨none, false⟩,
             w.set l ⟨none, 0⟩)) ∧
    (w.get l = ⟨some t, 1⟩ →
       UniqueLock.dtor false t ⟨some l, true⟩ w = some (w.set l ⟨none, 0⟩) ∧
       UniqueLock.dtor false t ⟨none, false⟩ (w.set l ⟨none, 0⟩)
         = some (w.set l ⟨none, 0⟩)) := by
  refine ⟨rfl, ?_, ?_⟩
  · intro hm hg hs
    obtain ⟨gm, go⟩ := g
    simp only at hm hg
    subst hm
    subst hg
    simp [UniqueLock.moveAssign, mutex.unlock, releaseMutex, hs]
  · intro hs
    constructor
    · simp [UniqueLock.dtor, mutex.unlock, releaseMutex, hs]
    · rfl

theorem uniqueLock_move_transfer_witness :
    ((⟨some 0, true⟩ : UniqueLock).m_mutex = some 0 ∧
      (⟨some 0, true⟩ : UniqueLock).m_owns_lock = true ∧
      wAllOwned0.get 0 = ⟨some 0, 1⟩) ∧
    UniqueLock.moveCtor ⟨some 0, true⟩
      = (⟨some 0, true⟩, ⟨none, false⟩) ∧
    UniqueLock.moveAssign false 0 ⟨some 0, true⟩ ⟨some 3, false⟩ wAllOwned0
      = some (⟨some 3, false⟩, ⟨none, false⟩, wAllOwned0.set 0 ⟨none, 0⟩) ∧
    UniqueLock.dtor false 0 ⟨some 0, true⟩ wAllOwned0
      = some (wAllOwned0.set 0 ⟨none, 0⟩) ∧
    UniqueLock.dtor false 0 ⟨none, false⟩ (wAllOwned0.set 0 ⟨none, 0⟩)
      = some (wAllOwned0.set 0 ⟨none, 0⟩) :=
  ⟨⟨rfl, rfl, rfl⟩,
   (uniqueLock_move_transfer 0 0 wAllOwned0 ⟨some 0, true⟩ ⟨some 3, false⟩).1,
   (uniqueLock_move_transfer 0 0 wAllOwned0 ⟨some 0, true⟩
      ⟨some 3, false⟩).2.1 rfl rfl rfl,
   ((uniqueLock_move_transfer 0 0 wAllOwned0 ⟨some 0, true⟩
      ⟨some 3, false⟩).2.2 rfl).1,
   ((uniqueLock_move_transfer 0 0 wAllOwned0 ⟨some 0, true⟩
      ⟨some 3, false⟩).2.2 rfl).2⟩

/-- C6: a lock_guard's constructor performs exactly one blocking acquire on
the referenced mutex (free mutex becomes owned by the caller with count 1)
and its destructor unconditionally performs exactly one release (the mutex
becomes free again), so over the guard's lifetime the referenced lock is
released exactly once. -/
theorem lock_guard_lifetime_release_once (t : Tid) (a : Nat) (w : World)
    (hfree : (w.get a).owner = none) :
    lock_guard.ctor false t WaitStatus.WAIT_OBJECT_0 a w
      = Outcome.ok (w.set a ⟨some t, 1⟩) ∧
    (w.set a ⟨some t, 1⟩).get a = ⟨some t, 1⟩ ∧
    lock_guard.dtor false t a (w.set a ⟨some t, 1⟩)
      = some ((w.set a ⟨some t, 1⟩).set a ⟨none, 0⟩) ∧
    ((w.set a ⟨some t, 1⟩).set a ⟨none, 0⟩).get a = ⟨none, 0⟩ := by
  have hacq : acquireMutex t (w.get a) = ⟨some t, 1⟩ := by
    rcases hwa : w.get a with ⟨o, c⟩
    rw [hwa] at hfree
    simp only at hfree
    subst hfree
    rfl
  refine ⟨?_, ?_, ?_, ?_⟩
  · simp [lock_guard.ctor, mutex.lock, hacq]
  · exact World.get_set_self w a ⟨some t, 1⟩
  · simp [lock_guard.dtor, mutex.unlock, releaseMutex, World.get_set_self]
  · exact World.get_set_self _ a ⟨none, 0⟩

theorem lock_guard_lifetime_release_once_witness :
    (wAllFree.get 0).owner = none ∧
    lock_guard.ctor false 0 WaitStatus.WAIT_OBJECT_0 0 wAllFree
      = Outcome.ok (wAllFree.set 0 ⟨some 0, 1⟩) ∧
    lock_guard.dtor false 0 0 (wAllFree.set 0 ⟨some 0, 1⟩)
      = some ((wAllFree.set 0 ⟨some 0, 1⟩).set 0 ⟨none, 0⟩) :=
  ⟨rfl,
   (lock_guard_lifetime_release_once 0 0 wAllFree rfl).1,
   (lock_guard_lifetime_release_once 0 0 wAllFree rfl).2.2.1⟩

theorem lockN_owned (t : Tid) (n : Nat) :
    ∀ c, recursive_mutex.lockN t n ⟨some t, c⟩ = some ⟨some t, c + n⟩ := by
  induction n with
  | zero => intro c; rfl
  | succ n ih =>
    intro c
    have h1 : recursive_mutex.lock t ⟨some t, c⟩ = some ⟨some t, c + 1⟩ := by
      simp [recursive_mutex.lock, enterCriticalSection]
    have harith : c + 1 + n = c + (n + 1) := by omega
    simp only [recursive_mutex.lockN, h1, Option.some_bind, ih (c + 1),
      harith]

theorem unlockN_partial (t : Tid) (j : Nat) :
    ∀ c, j < c →
      recursive_mutex.unlockN t j ⟨some t, c⟩ = some ⟨some t, c - j⟩ := by
  induction j with
  | zero => intro c _; rfl
  | succ j ih =>
    intro c hc
    have hnotle : ¬ (c ≤ 1) := by omega
    have h1 : recursive_mutex.unlock t ⟨some t, c⟩ = some ⟨some t, c - 1⟩ := by
      simp [recursive_mutex.unlock, leaveCriticalSection, hnotle]
    have harith : c - 1 - j = c - (j + 1) := by omega
    simp only [recursive_mutex.unlockN, h1, Option.some_bind,
      ih (c - 1) (by omega), harith]

theorem unlockN_full (t : Tid) (c : Nat) (h : 1 ≤ c) :
    recursive_mutex.unlockN t c ⟨some t, c⟩ = some ⟨none, 0⟩ := by
  obtain ⟨d, rfl⟩ : ∃ d, c = d + 1 := ⟨c - 1, by omega⟩
  clear h
  induction d with
  | zero =>
    simp [recursive_mutex.unlockN, recursive_mutex.unlock,
      leaveCriticalSection]
  | succ d ih =>
    have hnotle : ¬ (d + 1 + 1 ≤ 1) := by omega
    have h1 : recursive_mutex.unlock t ⟨some t, d + 1 + 1⟩
        = some ⟨some t, d + 1⟩ := by
      simp [recursive_mutex.unlock, leaveCriticalSection, hnotle]
    simp only [recursive_mutex.unlockN, h1, Option.some_bind]
    exact ih

/-- C7: starting from the free critical section, `k` nested acquires by
thread `t` give it recursion count `k`; the first `j < k` releases keep it
owned by `t` (a different thread `u` blocks on lock and fails try_lock),
and after the `k`-th release the section is free and available to `u`. -/
theorem recursive_mutex_nested_release_available (t u k j : Nat)
    (hu : u ≠ t) (hk : 1 ≤ k) (hj : j < k) :
    recursive_mutex.lockN t k csFree = some ⟨some t, k⟩ ∧
    recursive_mutex.unlockN t j ⟨some t, k⟩ = some ⟨some t, k - j⟩ ∧
    recursive_mutex.lock u ⟨some t, k - j⟩ = none ∧
    recursive_mutex.try_lock u ⟨some t, k - j⟩ = (false, ⟨some t, k - j⟩) ∧
    recursive_mutex.unlockN t k ⟨some t, k⟩ = some csFree ∧
    recursive_mutex.lock u csFree = some ⟨some u, 1⟩ ∧
    recursive_mutex.try_lock u csFree = (true, ⟨some u, 1⟩) := by
  refine ⟨?_, ?_, ?_, ?_, ?_, rfl, rfl⟩
  · obtain ⟨d, rfl⟩ : ∃ d, k = d + 1 := ⟨k - 1, by omega⟩
    have h1 : recursive_mutex.lock t csFree = some ⟨some t, 1⟩ := rfl
    have harith : 1 + d = d + 1 := by omega
    simp only [recursive_mutex.lockN, h1, Option.some_bind, lockN_owned t d 1,
      harith]
  · exact unlockN_partial t j k hj
  · simp [recursive_mutex.lock, enterCriticalSection, Ne.symm hu]
  · simp [recursive_mutex.try_lock, tryEnterCriticalSection, Ne.symm hu]
  · exact unlockN_full t k hk

theorem recursive_mutex_nested_release_available_witness :
    ((1 : Nat) ≠ 0 ∧ (1 : Nat) ≤ 3 ∧ (2 : Nat) < 3) ∧
    recursive_mutex.lockN 0 3 csFree = some ⟨some 0, 3⟩ ∧
    recursive_mutex.unlockN 0 2 ⟨some 0, 3⟩ = some ⟨some 0, 1⟩ ∧
    recursive_mutex.lock 1 ⟨some 0, 1⟩ = none ∧
    recursive_mutex.try_lock 1 ⟨some 0, 1⟩ = (false, ⟨some 0, 1⟩) ∧
    recursive_mutex.unlockN 0 3 ⟨some 0, 3⟩ = some csFree ∧
    recursive_mutex.try_lock 1 csFree = (true, ⟨some 1, 1⟩) :=
  ⟨⟨by decide, by decide, by decide⟩,
   (recursive_mutex_nested_release_available 0 1 3 2 (by decide) (by decide)
      (by decide)).1,
   (recursive_mutex_nested_release_available 0 1 3 2 (by decide) (by decide)
      (by decide)).2.1,
   (recursive_mutex_nested_release_available 0 1 3 2 (by decide) (by decide)
      (by decide)).2.2.1,
   (recursive_mutex_nested_release_available 0 1 3 2 (by decide) (by decide)
      (by decide)).2.2.2.1,
   (recursive_mutex_nested_release_available 0 1 3 2 (by decide) (by decide)
      (by decide)).2.2.2.2.1,
   (recursive_mutex_nested_release_available 0 1 3 2 (by decide) (by decide)
      (by decide)).2.2.2.2.2.2⟩

/-- C10: unique_lock's lock, try_lock and unlock contain no null check of
`m_mutex`: under the hypothesis that the guard is associated with a lock all
three are total in the embedding (in either build configuration), while on
the default-constructed guard (no association) lock and try_lock reach the
null dereference and have no defined outcome. -/
theorem uniqueLock_null_assoc_totality (dis : Bool) (t : Tid)
    (sig : WaitStatus) (g : UniqueLock) (w : World) (a : Nat)
    (hassoc : g.m_mutex = some a) :
    ((UniqueLock.lock dis t sig g w).isSome = true ∧
     (UniqueLock.try_lock dis t g w).isSome = true ∧
     (UniqueLock.unlock dis t g w).isSome = true) ∧
    UniqueLock.lock dis t sig UniqueLock.defaultCtor w = none ∧
    UniqueLock.try_lock dis t UniqueLock.defaultCtor w = none := by
  refine ⟨⟨?_, ?_, ?_⟩, ?_, ?_⟩
  · cases hb : g.m_owns_lock && !dis with
    | true => simp [UniqueLock.lock, hb]
    | false =>
      cases h2 : mutex.lock dis t sig (w.get a) with
      | ok s => simp [UniqueLock.lock, hb, hassoc, h2]
      | thrown m s => simp [UniqueLock.lock, hb, hassoc, h2]
  · cases hb : g.m_owns_lock && !dis with
    | true => simp [UniqueLock.try_lock, hb]
    | false => simp [UniqueLock.try_lock, hb, hassoc]
  · cases hb : !g.m_owns_lock && !dis with
    | true => simp [UniqueLock.unlock, hb]
    | false =>
      cases h2 : mutex.unlock dis t (w.get a) with
      | ok s => simp [UniqueLock.unlock, hb, hassoc, h2]
      | thrown m s => simp [UniqueLock.unlock, hb, hassoc, h2]
  · cases dis <;> rfl
  · cases dis <;> rfl

theorem uniqueLock_null_assoc_totality_witness :
    ((⟨some 0, false⟩ : UniqueLock).m_mutex = some 0) ∧
    ((UniqueLock.lock false 0 WaitStatus.WAIT_OBJECT_0 ⟨some 0, false⟩
        wAllFree).isSome = true ∧
     (UniqueLock.try_lock false 0 ⟨some 0, false⟩ wAllFree).isSome = true ∧
     (UniqueLock.unlock false 0 ⟨some 0, false⟩ wAllFree).isSome = true) ∧
    UniqueLock.lock false 0 WaitStatus.WAIT_OBJECT_0 UniqueLock.defaultCtor
      wAllFree = none ∧
    UniqueLock.try_lock false 0 UniqueLock.defaultCtor wAllFree = none :=
  ⟨rfl,
   (uniqueLock_null_assoc_totality false 0 WaitStatus.WAIT_OBJECT_0
      ⟨some 0, false⟩ wAllFree 0 rfl).1,
   (uniqueLock_null_assoc_totality false 0 WaitStatus.WAIT_OBJECT_0
      ⟨some 0, false⟩ wAllFree 0 rfl).2.1,
   (uniqueLock_null_assoc_totality false 0 WaitStatus.WAIT_OBJECT_0
      ⟨some 0, false⟩ wAllFree 0 rfl).2.2⟩

end khmz
